import Mathlib

/-!
# imx-pdm: clock derivation and stream lifecycle of the i.MX PDM microphone card

A shallow embedding of `sound/soc/fsl/imx-pdm.c`.

* `unsigned int` values are natural numbers; every `unsigned int` operation is
  reduced with `u32` (modulo `2 ^ 32`).
* `int` return codes are integers; `if (ret)` is `ret ≠ 0`.
* The kernel services the driver calls (PCM constraint installation, the CPU
  DAI operations, the device-tree and card-registration helpers) are
  parameters of the embedded functions: records of state-passing operations.
* Constants that come from headers outside this file are fields of `Headers`.
-/

namespace ImxPdm

/-! ## Machine arithmetic -/

/-- Reduction of a natural number to the range of a C `unsigned int`. -/
def u32 (n : Nat) : Nat := n % 2 ^ 32

/-! ## Static tables -/

/-- One row of the `fs_mul` table: a closed band of sample rates and its multiplier. -/
structure imx_pdm_mic_fs_mul where
  min : Nat
  max : Nat
  mul : Nat
deriving DecidableEq, Repr

/-- The `fs_mul` table: low power band first, then the performance band. -/
def fs_mul : List imx_pdm_mic_fs_mul :=
  [ { min := 8000, max := 11025, mul := 8 },
    { min := 16000, max := 64000, mul := 16 } ]

/-- The list behind the rate constraint. -/
def imx_pdm_mic_rates : List Nat :=
  [8000, 11025, 16000, 22050, 32000, 44100, 48000, 64000]

/-- The list behind the channel constraint. -/
def imx_pdm_mic_channels : List Nat := [1, 2, 4, 6, 8]

/-- The fields of `struct snd_pcm_hw_constraint_list` the driver sets: the
number of elements and the elements. -/
structure snd_pcm_hw_constraint_list where
  count : Nat
  list : List Nat
deriving DecidableEq, Repr

/-- The rate constraint; `count` is `ARRAY_SIZE(imx_pdm_mic_rates)`. -/
def imx_pdm_mic_rate_constrains : snd_pcm_hw_constraint_list :=
  { count := imx_pdm_mic_rates.length, list := imx_pdm_mic_rates }

/-- The channel constraint; `count` is `ARRAY_SIZE(imx_pdm_mic_channels)`. -/
def imx_pdm_mic_channels_constrains : snd_pcm_hw_constraint_list :=
  { count := imx_pdm_mic_channels.length, list := imx_pdm_mic_channels }

/-! ## Mclk frequency -/

/-- The `for` loop of `imx_pdm_mic_mclk_freq`, run over the rows that are still
to be visited. The product is formed in `unsigned int`, left to right; falling
off the end of the table is the `return 0` after the loop. -/
def mclk_freq_loop (decimation rate : Nat) : List imx_pdm_mic_fs_mul → Nat
  | [] => 0
  | row :: rest =>
    if rate ≥ row.min ∧ rate ≤ row.max then
      u32 (u32 (rate * decimation) * row.mul)
    else
      mclk_freq_loop decimation rate rest

/-- The function `imx_pdm_mic_mclk_freq(decimation, rate)`. The `unsigned int`
product is widened to `unsigned long` on return, which keeps its value. -/
def imx_pdm_mic_mclk_freq (decimation rate : Nat) : Nat :=
  mclk_freq_loop decimation rate fs_mul

/-! ## Header constants -/

/-- Constants the driver takes from headers outside this file (`sound/asound.h`,
`sound/soc-dai.h`, `fsl_sai.h`, `errno.h`). The functions below are parametric
in them. -/
structure Headers where
  SNDRV_PCM_HW_PARAM_RATE : Nat
  SNDRV_PCM_HW_PARAM_CHANNELS : Nat
  SNDRV_PCM_HW_PARAM_FORMAT : Nat
  SNDRV_PCM_FMTBIT_DSD_U8 : Nat
  SNDRV_PCM_FMTBIT_DSD_U16_LE : Nat
  SNDRV_PCM_FMTBIT_DSD_U32_LE : Nat
  SND_SOC_DAIFMT_PDM : Nat
  SND_SOC_DAIFMT_NB_NF : Nat
  SND_SOC_DAIFMT_CBS_CFS : Nat
  FSL_SAI_CLK_MAST1 : Int
  SND_SOC_CLOCK_OUT : Int
  EINVAL : Int
  ENOMEM : Int

/-- The mask `IMX_PDM_FORMATS`. -/
def IMX_PDM_FORMATS (h : Headers) : Nat :=
  h.SNDRV_PCM_FMTBIT_DSD_U8 ||| h.SNDRV_PCM_FMTBIT_DSD_U16_LE ||| h.SNDRV_PCM_FMTBIT_DSD_U32_LE

/-- One assignment of the header constants, with the values of the Linux
headers; it serves to evaluate the functions at concrete inputs. The general
theorems hold for every assignment. -/
def linux_headers : Headers where
  SNDRV_PCM_HW_PARAM_RATE := 11
  SNDRV_PCM_HW_PARAM_CHANNELS := 10
  SNDRV_PCM_HW_PARAM_FORMAT := 1
  SNDRV_PCM_FMTBIT_DSD_U8 := 2 ^ 48
  SNDRV_PCM_FMTBIT_DSD_U16_LE := 2 ^ 49
  SNDRV_PCM_FMTBIT_DSD_U32_LE := 2 ^ 50
  SND_SOC_DAIFMT_PDM := 7
  SND_SOC_DAIFMT_NB_NF := 0
  SND_SOC_DAIFMT_CBS_CFS := 16384
  FSL_SAI_CLK_MAST1 := 1
  SND_SOC_CLOCK_OUT := 1
  EINVAL := 22
  ENOMEM := 12

/-! ## Startup: constraint installation -/

/-- The PCM services `imx_pdm_mic_startup` calls on the stream runtime. Each
takes the runtime and the arguments of the C call, and returns the `int`
result with the runtime it leaves. -/
structure pcm_ops (ρ : Type) where
  snd_pcm_hw_constraint_list : ρ → Nat → Nat → snd_pcm_hw_constraint_list → Int × ρ
  snd_pcm_hw_constraint_mask64 : ρ → Nat → Nat → Int × ρ

/-- The function `imx_pdm_mic_startup`. The `dev_err` messages are not modelled. -/
def imx_pdm_mic_startup {ρ : Type} (h : Headers) (pcm : pcm_ops ρ) (runtime : ρ) : Int × ρ :=
  let r1 := pcm.snd_pcm_hw_constraint_list runtime 0 h.SNDRV_PCM_HW_PARAM_RATE
    imx_pdm_mic_rate_constrains
  if r1.1 ≠ 0 then (r1.1, r1.2) else
  let r2 := pcm.snd_pcm_hw_constraint_list r1.2 0 h.SNDRV_PCM_HW_PARAM_CHANNELS
    imx_pdm_mic_channels_constrains
  if r2.1 ≠ 0 then (r2.1, r2.2) else
  let r3 := pcm.snd_pcm_hw_constraint_mask64 r2.2 h.SNDRV_PCM_HW_PARAM_FORMAT
    (IMX_PDM_FORMATS h)
  if r3.1 ≠ 0 then (r3.1, r3.2) else
  (0, r3.2)

/-- A call made on the stream runtime, with its arguments. -/
inductive pcm_call where
  | constraint_list (cond var : Nat) (list : snd_pcm_hw_constraint_list)
  | constraint_mask64 (var mask : Nat)
deriving DecidableEq, Repr

/-- Any PCM service, extended with a log: every call is appended to the log
and otherwise answered as before. -/
def pcm_ops.logged {ρ : Type} (pcm : pcm_ops ρ) : pcm_ops (ρ × List pcm_call) where
  snd_pcm_hw_constraint_list := fun s cond var list =>
    let r := pcm.snd_pcm_hw_constraint_list s.1 cond var list
    (r.1, (r.2, s.2 ++ [pcm_call.constraint_list cond var list]))
  snd_pcm_hw_constraint_mask64 := fun s var mask =>
    let r := pcm.snd_pcm_hw_constraint_mask64 s.1 var mask
    (r.1, (r.2, s.2 ++ [pcm_call.constraint_mask64 var mask]))

/-- A runtime that is the list of the constraints installed on it. The answer
of every installation is fixed by `code`: a call answered `0` installs its
constraint, any other answer leaves the runtime as it was. -/
def recording_pcm (code : pcm_call → Int) : pcm_ops (List pcm_call) where
  snd_pcm_hw_constraint_list := fun s cond var list =>
    let c := pcm_call.constraint_list cond var list
    if code c = 0 then (0, s ++ [c]) else (code c, s)
  snd_pcm_hw_constraint_mask64 := fun s var mask =>
    let c := pcm_call.constraint_mask64 var mask
    if code c = 0 then (0, s ++ [c]) else (code c, s)

/-! ## hw_params: programming the CPU DAI -/

/-- The CPU DAI services `imx_pdm_mic_hw_params` calls. Each takes the state of
the DAI and the arguments of the C call, and returns the `int` result with the
state it leaves. -/
structure dai_ops (σ : Type) where
  snd_soc_dai_set_fmt : σ → Nat → Int × σ
  snd_soc_dai_set_bclk_ratio : σ → Nat → Int × σ
  snd_soc_dai_set_sysclk : σ → Int → Nat → Int → Int × σ

/-- The function `imx_pdm_mic_hw_params`, for the card data `decimation` and
the rate `params_rate(params)`. The `dev_err` messages are not modelled. -/
def imx_pdm_mic_hw_params {σ : Type} (h : Headers) (dai : dai_ops σ) (cpu_dai : σ)
    (decimation sample_rate : Nat) : Int × σ :=
  let r1 := dai.snd_soc_dai_set_fmt cpu_dai
    (h.SND_SOC_DAIFMT_PDM ||| h.SND_SOC_DAIFMT_NB_NF ||| h.SND_SOC_DAIFMT_CBS_CFS)
  if r1.1 ≠ 0 then (r1.1, r1.2) else
  let r2 := dai.snd_soc_dai_set_bclk_ratio r1.2 decimation
  if r2.1 ≠ 0 then (r2.1, r2.2) else
  let mclk_freq := imx_pdm_mic_mclk_freq decimation sample_rate
  let r3 := dai.snd_soc_dai_set_sysclk r2.2 h.FSL_SAI_CLK_MAST1 mclk_freq h.SND_SOC_CLOCK_OUT
  if r3.1 ≠ 0 then (r3.1, r3.2) else
  (0, r3.2)

/-- A call made on the CPU DAI, with its arguments. -/
inductive dai_call where
  | set_fmt (fmt : Nat)
  | set_bclk_ratio (ratio : Nat)
  | set_sysclk (clk_id : Int) (freq : Nat) (dir : Int)
deriving DecidableEq, Repr

/-- Any CPU DAI service, extended with a log: every call is appended to the
log and otherwise answered as before. -/
def dai_ops.logged {σ : Type} (dai : dai_ops σ) : dai_ops (σ × List dai_call) where
  snd_soc_dai_set_fmt := fun s fmt =>
    let r := dai.snd_soc_dai_set_fmt s.1 fmt
    (r.1, (r.2, s.2 ++ [dai_call.set_fmt fmt]))
  snd_soc_dai_set_bclk_ratio := fun s ratio =>
    let r := dai.snd_soc_dai_set_bclk_ratio s.1 ratio
    (r.1, (r.2, s.2 ++ [dai_call.set_bclk_ratio ratio]))
  snd_soc_dai_set_sysclk := fun s clk_id freq dir =>
    let r := dai.snd_soc_dai_set_sysclk s.1 clk_id freq dir
    (r.1, (r.2, s.2 ++ [dai_call.set_sysclk clk_id freq dir]))

/-- A CPU DAI without state on which every call succeeds. -/
def accepting_dai : dai_ops Unit where
  snd_soc_dai_set_fmt := fun s _ => (0, s)
  snd_soc_dai_set_bclk_ratio := fun s _ => (0, s)
  snd_soc_dai_set_sysclk := fun s _ _ _ => (0, s)

/-! ## Probe -/

/-- The fields of `struct snd_soc_dai_link` that probe fills in. -/
structure snd_soc_dai_link where
  name : String
  stream_name : String
  codecs_dai_name : String
  codecs_name : String
  cpus_dai_name : String
  platforms_of_node : Nat
  num_cpus : Nat
  num_platforms : Nat
  num_codecs : Nat
  capture_only : Nat
deriving DecidableEq, Repr

/-- The structure `struct imx_pdm_data`; of the card only `num_links` is kept. -/
structure imx_pdm_data where
  dai : snd_soc_dai_link
  card_num_links : Nat
  decimation : Nat
deriving DecidableEq, Repr

/-- What the platform answers to the calls of `imx_pdm_mic_probe`:
whether each `devm_kzalloc` returns memory, the node of the `audio-cpu`
phandle, the name of the device found for a node, the result of
`of_property_read_u32` for `decimation` together with the value
`data->decimation` holds after the call, and the results of
`snd_soc_of_parse_card_name` and `devm_snd_soc_register_card`. -/
structure platform_env where
  devm_kzalloc_dlc : Bool
  of_parse_phandle : Option Nat
  of_find_device_by_node : Nat → Option String
  devm_kzalloc_data : Bool
  of_property_read_u32 : Int × Nat
  snd_soc_of_parse_card_name : Int
  devm_snd_soc_register_card : imx_pdm_data → Int

/-- What a run of `imx_pdm_mic_probe` does: the value returned, the card data
passed to `devm_snd_soc_register_card` if that call was made, and the node
released with `of_node_put` if any. -/
structure probe_result where
  ret : Int
  register_card : Option imx_pdm_data
  of_node_put : Option Nat
deriving DecidableEq, Repr

/-- The function `imx_pdm_mic_probe`. The `dev_err` messages and the driver
data pointers are not modelled. -/
def imx_pdm_mic_probe (h : Headers) (env : platform_env) : probe_result :=
  if !env.devm_kzalloc_dlc then { ret := -h.ENOMEM, register_card := none, of_node_put := none }
  else
  match env.of_parse_phandle with
  | none => { ret := -h.EINVAL, register_card := none, of_node_put := none }
  | some cpu_np =>
    match env.of_find_device_by_node cpu_np with
    | none => { ret := -h.EINVAL, register_card := none, of_node_put := some cpu_np }
    | some cpu_dev_name =>
      if !env.devm_kzalloc_data then
        { ret := -h.ENOMEM, register_card := none, of_node_put := some cpu_np }
      else if env.of_property_read_u32.1 < 0 then
        { ret := -h.EINVAL, register_card := none, of_node_put := some cpu_np }
      else
        let data : imx_pdm_data :=
          { dai :=
              { name := "pdm hifi"
                stream_name := "pdm hifi"
                codecs_dai_name := "snd-soc-dummy-dai"
                codecs_name := "snd-soc-dummy"
                cpus_dai_name := cpu_dev_name
                platforms_of_node := cpu_np
                num_cpus := 1
                num_platforms := 1
                num_codecs := 1
                capture_only := 1 }
            card_num_links := 1
            decimation := env.of_property_read_u32.2 }
        if env.snd_soc_of_parse_card_name ≠ 0 then
          { ret := env.snd_soc_of_parse_card_name, register_card := none,
            of_node_put := some cpu_np }
        else if env.devm_snd_soc_register_card data ≠ 0 then
          { ret := env.devm_snd_soc_register_card data, register_card := some data,
            of_node_put := some cpu_np }
        else
          { ret := 0, register_card := some data, of_node_put := some cpu_np }

/-- A board on which every call of probe succeeds and whose `decimation`
property reads `decimation`. -/
def good_board (decimation : Nat) : platform_env where
  devm_kzalloc_dlc := true
  of_parse_phandle := some 1
  of_find_device_by_node := fun _ => some "sai"
  devm_kzalloc_data := true
  of_property_read_u32 := (0, decimation)
  snd_soc_of_parse_card_name := 0
  devm_snd_soc_register_card := fun _ => 0

/-- A board whose `decimation` property is absent: `of_property_read_u32`
answers `-EINVAL` and leaves the zeroed field untouched. -/
def board_without_decimation : platform_env where
  devm_kzalloc_dlc := true
  of_parse_phandle := some 1
  of_find_device_by_node := fun _ => some "sai"
  devm_kzalloc_data := true
  of_property_read_u32 := (-22, 0)
  snd_soc_of_parse_card_name := 0
  devm_snd_soc_register_card := fun _ => 0

/-- Answers of a runtime that accepts both constraint lists and refuses the
format mask with `-EINVAL`. -/
def refuse_format_mask (h : Headers) : pcm_call → Int
  | pcm_call.constraint_list _ _ _ => 0
  | pcm_call.constraint_mask64 _ _ => -h.EINVAL

/-! ## The mclk frequency -/

theorem mclk_freq_of_low_power (d r : Nat) (h1 : 8000 ≤ r) (h2 : r ≤ 11025) :
    imx_pdm_mic_mclk_freq d r = (r * d * 8) % 2 ^ 32 := by
  simp [imx_pdm_mic_mclk_freq, fs_mul, mclk_freq_loop, u32, h1, h2, Nat.mod_mul_mod]

theorem mclk_freq_of_performance (d r : Nat) (h1 : 16000 ≤ r) (h2 : r ≤ 64000) :
    imx_pdm_mic_mclk_freq d r = (r * d * 16) % 2 ^ 32 := by
  have h3 : ¬ r ≤ 11025 := by omega
  simp [imx_pdm_mic_mclk_freq, fs_mul, mclk_freq_loop, u32, h1, h2, h3, Nat.mod_mul_mod]

theorem mclk_freq_of_no_band (d r : Nat)
    (h : r < 8000 ∨ (11025 < r ∧ r < 16000) ∨ 64000 < r) :
    imx_pdm_mic_mclk_freq d r = 0 := by
  have h1 : ¬ (8000 ≤ r ∧ r ≤ 11025) := by omega
  have h2 : ¬ (16000 ≤ r ∧ r ≤ 64000) := by omega
  simp [imx_pdm_mic_mclk_freq, fs_mul, mclk_freq_loop, h1, h2]

/-- A rate is in no band exactly when it lies below, between or above the two bands. -/
theorem no_band_iff (r : Nat) :
    (r < 8000 ∨ (11025 < r ∧ r < 16000) ∨ 64000 < r) ↔
      ¬ ((8000 ≤ r ∧ r ≤ 11025) ∨ (16000 ≤ r ∧ r ≤ 64000)) := by
  omega

/-- Every rate of the allowed rate list lies in one of the two bands. -/
theorem listed_rates_in_band :
    ∀ r ∈ imx_pdm_mic_rates, (8000 ≤ r ∧ r ≤ 11025) ∨ (16000 ≤ r ∧ r ≤ 64000) := by
  decide

/-- C1 (as amended): for every rate `r` of the performance band 16000..64000
and every decimation `d` whose product `r * d * 16` is below `2 ^ 32`,
`imx_pdm_mic_mclk_freq d r` is exactly `r * d * 16`. -/
theorem mclk_freq_performance_exact (d r : Nat) (h1 : 16000 ≤ r) (h2 : r ≤ 64000)
    (hfit : r * d * 16 < 2 ^ 32) :
    imx_pdm_mic_mclk_freq d r = r * d * 16 := by
  rw [mclk_freq_of_performance d r h1 h2]
  exact Nat.mod_eq_of_lt hfit

/-- C1, witness: decimation 64 at 16000 Hz gives 16384000 Hz. -/
theorem mclk_freq_performance_exact_witness :
    imx_pdm_mic_mclk_freq 64 16000 = 16000 * 64 * 16 ∧ 16000 * 64 * 16 = 16384000 :=
  ⟨mclk_freq_performance_exact 64 16000 (by decide) (by decide) (by decide), by decide⟩

/-- C1, counterexample: decimation 4195 fits the 32-bit field and 64000 Hz is
in the performance band, yet the result is 712704, not the product 4295680000. -/
theorem mclk_freq_performance_wraps :
    0 < 4195 ∧ 4195 < 2 ^ 32 ∧ 16000 ≤ 64000 ∧ 64000 ≤ 64000 ∧
      imx_pdm_mic_mclk_freq 4195 64000 = 712704 ∧
      imx_pdm_mic_mclk_freq 4195 64000 ≠ 64000 * 4195 * 16 := by
  decide

/-- C2 (as amended): for every rate `r` of the low power band 8000..11025 and
every decimation `d` whose product `r * d * 8` is below `2 ^ 32`,
`imx_pdm_mic_mclk_freq d r` is exactly `r * d * 8`. -/
theorem mclk_freq_low_power_exact (d r : Nat) (h1 : 8000 ≤ r) (h2 : r ≤ 11025)
    (hfit : r * d * 8 < 2 ^ 32) :
    imx_pdm_mic_mclk_freq d r = r * d * 8 := by
  rw [mclk_freq_of_low_power d r h1 h2]
  exact Nat.mod_eq_of_lt hfit

/-- C2, witness: decimation 64 at 8000 Hz gives 4096000 Hz. -/
theorem mclk_freq_low_power_exact_witness :
    imx_pdm_mic_mclk_freq 64 8000 = 8000 * 64 * 8 ∧ 8000 * 64 * 8 = 4096000 :=
  ⟨mclk_freq_low_power_exact 64 8000 (by decide) (by decide) (by decide), by decide⟩

/-- C2, counterexample: decimation 67109 fits the 32-bit field and 8000 Hz is
in the low power band, yet the result is 8704, not the product 4294976000. -/
theorem mclk_freq_low_power_wraps :
    0 < 67109 ∧ 67109 < 2 ^ 32 ∧ 8000 ≤ 8000 ∧ 8000 ≤ 11025 ∧
      imx_pdm_mic_mclk_freq 67109 8000 = 8704 ∧
      imx_pdm_mic_mclk_freq 67109 8000 ≠ 8000 * 67109 * 8 := by
  decide

/-- C3 (as amended): 22050 Hz is a member of the allowed rate list and lies in
the performance band, so for every decimation `d > 0` whose product
`22050 * d * 16` is below `2 ^ 32` the result is that product, which is not
the value 0 of an unsupported rate. -/
theorem mclk_freq_22050_supported (d : Nat) (hd : 0 < d) (hfit : 22050 * d * 16 < 2 ^ 32) :
    22050 ∈ imx_pdm_mic_rates ∧
      imx_pdm_mic_mclk_freq d 22050 = 22050 * d * 16 ∧
      imx_pdm_mic_mclk_freq d 22050 ≠ 0 := by
  have h := mclk_freq_of_performance d 22050 (by decide) (by decide)
  rw [Nat.mod_eq_of_lt hfit] at h
  refine ⟨by decide, h, ?_⟩
  rw [h]
  omega

/-- C3, witness: decimation 32 at 22050 Hz gives 11289600 Hz. -/
theorem mclk_freq_22050_supported_witness :
    22050 ∈ imx_pdm_mic_rates ∧
      imx_pdm_mic_mclk_freq 32 22050 = 22050 * 32 * 16 ∧
      imx_pdm_mic_mclk_freq 32 22050 ≠ 0 :=
  mclk_freq_22050_supported 32 (by decide) (by decide)

/-- C3, counterexample: for decimation 32 the result at 22050 Hz is 11289600,
not 0. -/
theorem mclk_freq_22050_not_unsupported :
    0 < 32 ∧ 22050 ∈ imx_pdm_mic_rates ∧
      imx_pdm_mic_mclk_freq 32 22050 = 11289600 ∧ imx_pdm_mic_mclk_freq 32 22050 ≠ 0 := by
  decide

/-- C8: for every rate outside both bands (below 8000, strictly between 11025
and 16000, or above 64000) and every decimation, `imx_pdm_mic_mclk_freq`
returns 0. -/
theorem mclk_freq_out_of_band (d r : Nat)
    (h : r < 8000 ∨ (11025 < r ∧ r < 16000) ∨ 64000 < r) :
    imx_pdm_mic_mclk_freq d r = 0 :=
  mclk_freq_of_no_band d r h

/-- C8, witness: 12000 Hz lies between the bands, and decimation 64 gives 0 there. -/
theorem mclk_freq_out_of_band_witness :
    (11025 < 12000 ∧ 12000 < 16000) ∧ imx_pdm_mic_mclk_freq 64 12000 = 0 :=
  ⟨by decide, mclk_freq_out_of_band 64 12000 (Or.inr (Or.inl (by decide)))⟩

/-- C10: for a rate `r` in a band of multiplier `m` (8 for 8000..11025, 16 for
16000..64000) and every decimation `d`, the result is `r * d * m` modulo
`2 ^ 32`; it is the exact product if and only if the product is below
`2 ^ 32`; and for `d > 0` with the product below `2 ^ 32` it is not 0. For
`d > 0` and a rate whose products stay below `2 ^ 32`, the result is 0 exactly
when the rate is in no band. -/
theorem mclk_freq_mod_two_pow_32 (d r : Nat) :
    (∀ m : Nat, (8000 ≤ r ∧ r ≤ 11025 ∧ m = 8) ∨ (16000 ≤ r ∧ r ≤ 64000 ∧ m = 16) →
      imx_pdm_mic_mclk_freq d r = (r * d * m) % 2 ^ 32 ∧
      (imx_pdm_mic_mclk_freq d r = r * d * m ↔ r * d * m < 2 ^ 32) ∧
      (0 < d → r * d * m < 2 ^ 32 → imx_pdm_mic_mclk_freq d r ≠ 0)) ∧
    (0 < d →
      (∀ m : Nat, (8000 ≤ r ∧ r ≤ 11025 ∧ m = 8) ∨ (16000 ≤ r ∧ r ≤ 64000 ∧ m = 16) →
        r * d * m < 2 ^ 32) →
      (imx_pdm_mic_mclk_freq d r = 0 ↔
        ¬ ((8000 ≤ r ∧ r ≤ 11025) ∨ (16000 ≤ r ∧ r ≤ 64000)))) := by
  have key : ∀ m : Nat,
      (8000 ≤ r ∧ r ≤ 11025 ∧ m = 8) ∨ (16000 ≤ r ∧ r ≤ 64000 ∧ m = 16) →
      imx_pdm_mic_mclk_freq d r = (r * d * m) % 2 ^ 32 ∧ 0 < r ∧ 0 < m := by
    intro m hm
    rcases hm with ⟨h1, h2, rfl⟩ | ⟨h1, h2, rfl⟩
    · exact ⟨mclk_freq_of_low_power d r h1 h2, by omega, by decide⟩
    · exact ⟨mclk_freq_of_performance d r h1 h2, by omega, by decide⟩
  refine ⟨?_, ?_⟩
  · intro m hm
    obtain ⟨heq, hr, hmpos⟩ := key m hm
    refine ⟨heq, ?_, ?_⟩
    · rw [heq]
      constructor
      · intro h
        have hlt : (r * d * m) % 2 ^ 32 < 2 ^ 32 := Nat.mod_lt _ (by decide)
        omega
      · intro h
        exact Nat.mod_eq_of_lt h
    · intro hd hfit
      rw [heq, Nat.mod_eq_of_lt hfit]
      exact Nat.pos_iff_ne_zero.mp (Nat.mul_pos (Nat.mul_pos hr hd) hmpos)
  · intro hd hfit
    constructor
    · intro hz hband
      have hm : ∃ m : Nat,
          (8000 ≤ r ∧ r ≤ 11025 ∧ m = 8) ∨ (16000 ≤ r ∧ r ≤ 64000 ∧ m = 16) := by
        rcases hband with ⟨h1, h2⟩ | ⟨h1, h2⟩
        · exact ⟨8, Or.inl ⟨h1, h2, rfl⟩⟩
        · exact ⟨16, Or.inr ⟨h1, h2, rfl⟩⟩
      obtain ⟨m, hm⟩ := hm
      obtain ⟨heq, hr, hmpos⟩ := key m hm
      rw [heq, Nat.mod_eq_of_lt (hfit m hm)] at hz
      exact absurd hz (Nat.pos_iff_ne_zero.mp (Nat.mul_pos (Nat.mul_pos hr hd) hmpos))
    · intro hno
      exact mclk_freq_of_no_band d r ((no_band_iff r).mpr hno)

/-- C10, witness: at decimation 4195 and 64000 Hz (multiplier 16) the result is
the product modulo `2 ^ 32` and differs from the product; at decimation 64 and
16000 Hz the product fits and the result is not 0. -/
theorem mclk_freq_mod_two_pow_32_witness :
    imx_pdm_mic_mclk_freq 4195 64000 = (64000 * 4195 * 16) % 2 ^ 32 ∧
      imx_pdm_mic_mclk_freq 64 16000 ≠ 0 :=
  ⟨((mclk_freq_mod_two_pow_32 4195 64000).1 16 (Or.inr ⟨by decide, by decide, rfl⟩)).1,
   ((mclk_freq_mod_two_pow_32 64 16000).1 16 (Or.inr ⟨by decide, by decide, rfl⟩)).2.2
     (by decide) (by decide)⟩

/-! ## hw_params -/

theorem hw_params_logged_fmt_fails {σ : Type} (h : Headers) (dai : dai_ops σ) (cpu_dai : σ)
    (decimation sample_rate : Nat) (fmt : Nat)
    (hfmt : fmt = h.SND_SOC_DAIFMT_PDM ||| h.SND_SOC_DAIFMT_NB_NF ||| h.SND_SOC_DAIFMT_CBS_CFS)
    (h1 : (dai.snd_soc_dai_set_fmt cpu_dai fmt).1 ≠ 0) :
    imx_pdm_mic_hw_params h dai.logged (cpu_dai, []) decimation sample_rate =
      ((dai.snd_soc_dai_set_fmt cpu_dai fmt).1, (dai.snd_soc_dai_set_fmt cpu_dai fmt).2,
        [dai_call.set_fmt fmt]) := by
  subst hfmt
  simp only [imx_pdm_mic_hw_params, dai_ops.logged]
  simp [h1]

theorem hw_params_logged_bclk_fails {σ : Type} (h : Headers) (dai : dai_ops σ) (cpu_dai : σ)
    (decimation sample_rate : Nat) (fmt : Nat)
    (hfmt : fmt = h.SND_SOC_DAIFMT_PDM ||| h.SND_SOC_DAIFMT_NB_NF ||| h.SND_SOC_DAIFMT_CBS_CFS)
    (h1 : (dai.snd_soc_dai_set_fmt cpu_dai fmt).1 = 0)
    (h2 : (dai.snd_soc_dai_set_bclk_ratio (dai.snd_soc_dai_set_fmt cpu_dai fmt).2
      decimation).1 ≠ 0) :
    imx_pdm_mic_hw_params h dai.logged (cpu_dai, []) decimation sample_rate =
      ((dai.snd_soc_dai_set_bclk_ratio (dai.snd_soc_dai_set_fmt cpu_dai fmt).2 decimation).1,
        (dai.snd_soc_dai_set_bclk_ratio (dai.snd_soc_dai_set_fmt cpu_dai fmt).2 decimation).2,
        [dai_call.set_fmt fmt, dai_call.set_bclk_ratio decimation]) := by
  subst hfmt
  simp only [imx_pdm_mic_hw_params, dai_ops.logged]
  simp [h1, h2]

theorem hw_params_logged_reaches_sysclk {σ : Type} (h : Headers) (dai : dai_ops σ)
    (cpu_dai : σ) (decimation sample_rate : Nat) (fmt : Nat)
    (hfmt : fmt = h.SND_SOC_DAIFMT_PDM ||| h.SND_SOC_DAIFMT_NB_NF ||| h.SND_SOC_DAIFMT_CBS_CFS)
    (h1 : (dai.snd_soc_dai_set_fmt cpu_dai fmt).1 = 0)
    (h2 : (dai.snd_soc_dai_set_bclk_ratio (dai.snd_soc_dai_set_fmt cpu_dai fmt).2
      decimation).1 = 0) :
    imx_pdm_mic_hw_params h dai.logged (cpu_dai, []) decimation sample_rate =
      ((dai.snd_soc_dai_set_sysclk
          (dai.snd_soc_dai_set_bclk_ratio (dai.snd_soc_dai_set_fmt cpu_dai fmt).2 decimation).2
          h.FSL_SAI_CLK_MAST1 (imx_pdm_mic_mclk_freq decimation sample_rate)
          h.SND_SOC_CLOCK_OUT).1,
        (dai.snd_soc_dai_set_sysclk
          (dai.snd_soc_dai_set_bclk_ratio (dai.snd_soc_dai_set_fmt cpu_dai fmt).2 decimation).2
          h.FSL_SAI_CLK_MAST1 (imx_pdm_mic_mclk_freq decimation sample_rate)
          h.SND_SOC_CLOCK_OUT).2,
        [dai_call.set_fmt fmt, dai_call.set_bclk_ratio decimation,
          dai_call.set_sysclk h.FSL_SAI_CLK_MAST1
            (imx_pdm_mic_mclk_freq decimation sample_rate) h.SND_SOC_CLOCK_OUT]) := by
  subst hfmt
  simp only [imx_pdm_mic_hw_params, dai_ops.logged]
  simp only [h1, h2]
  by_cases h3 : (dai.snd_soc_dai_set_sysclk
      (dai.snd_soc_dai_set_bclk_ratio (dai.snd_soc_dai_set_fmt cpu_dai
        (h.SND_SOC_DAIFMT_PDM ||| h.SND_SOC_DAIFMT_NB_NF ||| h.SND_SOC_DAIFMT_CBS_CFS)).2
        decimation).2
      h.FSL_SAI_CLK_MAST1 (imx_pdm_mic_mclk_freq decimation sample_rate)
      h.SND_SOC_CLOCK_OUT).1 = 0
  · simp [h3]
  · simp [h3]

/-- C5: `imx_pdm_mic_hw_params` calls, in this order, set-format (PDM, normal
clock polarity, controller is clock and frame master), set-bitclock-ratio
(decimation) and set-master-clock (`FSL_SAI_CLK_MAST1`,
`imx_pdm_mic_mclk_freq decimation rate`, output). When a call fails, its code
is returned and the log of calls ends with it; 0 is returned only with all
three calls in the log, with these arguments, and all three answered 0. -/
theorem hw_params_call_sequence {σ : Type} (h : Headers) (dai : dai_ops σ) (cpu_dai : σ)
    (decimation sample_rate : Nat) :
    let fmt := h.SND_SOC_DAIFMT_PDM ||| h.SND_SOC_DAIFMT_NB_NF ||| h.SND_SOC_DAIFMT_CBS_CFS
    let freq := imx_pdm_mic_mclk_freq decimation sample_rate
    let r1 := dai.snd_soc_dai_set_fmt cpu_dai fmt
    let r2 := dai.snd_soc_dai_set_bclk_ratio r1.2 decimation
    let r3 := dai.snd_soc_dai_set_sysclk r2.2 h.FSL_SAI_CLK_MAST1 freq h.SND_SOC_CLOCK_OUT
    let out := imx_pdm_mic_hw_params h dai.logged (cpu_dai, []) decimation sample_rate
    (r1.1 ≠ 0 → out = (r1.1, r1.2, [dai_call.set_fmt fmt])) ∧
    (r1.1 = 0 → r2.1 ≠ 0 →
      out = (r2.1, r2.2, [dai_call.set_fmt fmt, dai_call.set_bclk_ratio decimation])) ∧
    (r1.1 = 0 → r2.1 = 0 →
      out = (r3.1, r3.2, [dai_call.set_fmt fmt, dai_call.set_bclk_ratio decimation,
        dai_call.set_sysclk h.FSL_SAI_CLK_MAST1 freq h.SND_SOC_CLOCK_OUT])) ∧
    (out.1 = 0 →
      r1.1 = 0 ∧ r2.1 = 0 ∧ r3.1 = 0 ∧
      out.2.2 = [dai_call.set_fmt fmt, dai_call.set_bclk_ratio decimation,
        dai_call.set_sysclk h.FSL_SAI_CLK_MAST1 freq h.SND_SOC_CLOCK_OUT]) := by
  intro fmt freq r1 r2 r3 out
  refine ⟨fun h1 => hw_params_logged_fmt_fails h dai cpu_dai decimation sample_rate fmt rfl h1,
    fun h1 h2 => hw_params_logged_bclk_fails h dai cpu_dai decimation sample_rate fmt rfl h1 h2,
    fun h1 h2 =>
      hw_params_logged_reaches_sysclk h dai cpu_dai decimation sample_rate fmt rfl h1 h2, ?_⟩
  intro h0
  by_cases h1 : r1.1 = 0
  · by_cases h2 : r2.1 = 0
    · have hout : out = _ :=
        hw_params_logged_reaches_sysclk h dai cpu_dai decimation sample_rate fmt rfl h1 h2
      rw [hout] at h0
      exact ⟨h1, h2, h0, by rw [hout]⟩
    · have hout : out = _ :=
        hw_params_logged_bclk_fails h dai cpu_dai decimation sample_rate fmt rfl h1 h2
      rw [hout] at h0
      exact absurd h0 h2
  · have hout : out = _ :=
      hw_params_logged_fmt_fails h dai cpu_dai decimation sample_rate fmt rfl h1
    rw [hout] at h0
    exact absurd h0 h1

/-- C5, witness: on a controller that accepts every call, decimation 64 at
48000 Hz returns 0 after the three calls, the last one with 49152000 Hz. -/
theorem hw_params_call_sequence_witness :
    imx_pdm_mic_hw_params linux_headers accepting_dai.logged ((), []) 64 48000 =
      (0, (), [dai_call.set_fmt (7 ||| 0 ||| 16384), dai_call.set_bclk_ratio 64,
        dai_call.set_sysclk 1 (imx_pdm_mic_mclk_freq 64 48000) 1]) ∧
    imx_pdm_mic_mclk_freq 64 48000 = 49152000 :=
  ⟨(hw_params_call_sequence linux_headers accepting_dai () 64 48000).2.2.1 rfl rfl, by decide⟩

/-- C4 (as amended): `imx_pdm_mic_hw_params` does not test the value of
`imx_pdm_mic_mclk_freq`. For every session and rate for which that value is 0,
once set-format and set-bitclock-ratio have succeeded it calls
set-master-clock (`FSL_SAI_CLK_MAST1`, 0, output) and returns the result of
that call, so it returns 0 when the controller accepts the call. -/
theorem hw_params_programs_zero_mclk {σ : Type} (h : Headers) (dai : dai_ops σ) (cpu_dai : σ)
    (decimation sample_rate : Nat)
    (hz : imx_pdm_mic_mclk_freq decimation sample_rate = 0)
    (h1 : (dai.snd_soc_dai_set_fmt cpu_dai
      (h.SND_SOC_DAIFMT_PDM ||| h.SND_SOC_DAIFMT_NB_NF ||| h.SND_SOC_DAIFMT_CBS_CFS)).1 = 0)
    (h2 : (dai.snd_soc_dai_set_bclk_ratio (dai.snd_soc_dai_set_fmt cpu_dai
      (h.SND_SOC_DAIFMT_PDM ||| h.SND_SOC_DAIFMT_NB_NF ||| h.SND_SOC_DAIFMT_CBS_CFS)).2
      decimation).1 = 0) :
    let fmt := h.SND_SOC_DAIFMT_PDM ||| h.SND_SOC_DAIFMT_NB_NF ||| h.SND_SOC_DAIFMT_CBS_CFS
    let r2 := dai.snd_soc_dai_set_bclk_ratio (dai.snd_soc_dai_set_fmt cpu_dai fmt).2 decimation
    let r3 := dai.snd_soc_dai_set_sysclk r2.2 h.FSL_SAI_CLK_MAST1 0 h.SND_SOC_CLOCK_OUT
    imx_pdm_mic_hw_params h dai.logged (cpu_dai, []) decimation sample_rate =
      (r3.1, r3.2, [dai_call.set_fmt fmt, dai_call.set_bclk_ratio decimation,
        dai_call.set_sysclk h.FSL_SAI_CLK_MAST1 0 h.SND_SOC_CLOCK_OUT]) := by
  intro fmt r2 r3
  have hout := hw_params_logged_reaches_sysclk h dai cpu_dai decimation sample_rate fmt rfl h1 h2
  rw [hz] at hout
  exact hout

/-- C4, witness: 12000 Hz is in no band; on a controller that accepts every
call, decimation 64 at 12000 Hz programs 0 Hz and returns 0. -/
theorem hw_params_programs_zero_mclk_witness :
    imx_pdm_mic_mclk_freq 64 12000 = 0 ∧
    imx_pdm_mic_hw_params linux_headers accepting_dai.logged ((), []) 64 12000 =
      (0, (), [dai_call.set_fmt (7 ||| 0 ||| 16384), dai_call.set_bclk_ratio 64,
        dai_call.set_sysclk 1 0 1]) :=
  ⟨by decide, hw_params_programs_zero_mclk linux_headers accepting_dai () 64 12000
    (by decide) rfl rfl⟩

/-- C4, counterexample: with every controller call succeeding, decimation 64
at 5000 Hz (in no band) and decimation 8388608 at 8000 Hz (a listed rate whose
product wraps to 0) both have mclk frequency 0, and `imx_pdm_mic_hw_params`
returns 0 after calling set-master-clock with 0. -/
theorem hw_params_accepts_unsupported_rate :
    (imx_pdm_mic_mclk_freq 64 5000 = 0 ∧
      imx_pdm_mic_hw_params linux_headers accepting_dai.logged ((), []) 64 5000 =
        (0, (), [dai_call.set_fmt 16391, dai_call.set_bclk_ratio 64,
          dai_call.set_sysclk 1 0 1])) ∧
    (8000 ∈ imx_pdm_mic_rates ∧ imx_pdm_mic_mclk_freq 8388608 8000 = 0 ∧
      imx_pdm_mic_hw_params linux_headers accepting_dai.logged ((), []) 8388608 8000 =
        (0, (), [dai_call.set_fmt 16391, dai_call.set_bclk_ratio 8388608,
          dai_call.set_sysclk 1 0 1])) := by
  decide

/-! ## Startup -/

theorem startup_rate_fails {ρ : Type} (h : Headers) (pcm : pcm_ops ρ) (runtime : ρ)
    (h1 : (pcm.snd_pcm_hw_constraint_list runtime 0 h.SNDRV_PCM_HW_PARAM_RATE
      imx_pdm_mic_rate_constrains).1 ≠ 0) :
    imx_pdm_mic_startup h pcm runtime =
      pcm.snd_pcm_hw_constraint_list runtime 0 h.SNDRV_PCM_HW_PARAM_RATE imx_pdm_mic_rate_constrains := by
  simp [imx_pdm_mic_startup, h1]

theorem startup_channels_fails {ρ : Type} (h : Headers) (pcm : pcm_ops ρ) (runtime : ρ)
    (h1 : (pcm.snd_pcm_hw_constraint_list runtime 0 h.SNDRV_PCM_HW_PARAM_RATE
      imx_pdm_mic_rate_constrains).1 = 0)
    (h2 : (pcm.snd_pcm_hw_constraint_list
      (pcm.snd_pcm_hw_constraint_list runtime 0 h.SNDRV_PCM_HW_PARAM_RATE imx_pdm_mic_rate_constrains).2
      0 h.SNDRV_PCM_HW_PARAM_CHANNELS imx_pdm_mic_channels_constrains).1 ≠ 0) :
    imx_pdm_mic_startup h pcm runtime =
      pcm.snd_pcm_hw_constraint_list
        (pcm.snd_pcm_hw_constraint_list runtime 0 h.SNDRV_PCM_HW_PARAM_RATE imx_pdm_mic_rate_constrains).2
        0 h.SNDRV_PCM_HW_PARAM_CHANNELS imx_pdm_mic_channels_constrains := by
  simp [imx_pdm_mic_startup, h1, h2]

theorem startup_reaches_format {ρ : Type} (h : Headers) (pcm : pcm_ops ρ) (runtime : ρ)
    (h1 : (pcm.snd_pcm_hw_constraint_list runtime 0 h.SNDRV_PCM_HW_PARAM_RATE
      imx_pdm_mic_rate_constrains).1 = 0)
    (h2 : (pcm.snd_pcm_hw_constraint_list
      (pcm.snd_pcm_hw_constraint_list runtime 0 h.SNDRV_PCM_HW_PARAM_RATE imx_pdm_mic_rate_constrains).2
      0 h.SNDRV_PCM_HW_PARAM_CHANNELS imx_pdm_mic_channels_constrains).1 = 0) :
    imx_pdm_mic_startup h pcm runtime =
      pcm.snd_pcm_hw_constraint_mask64
        (pcm.snd_pcm_hw_constraint_list
          (pcm.snd_pcm_hw_constraint_list runtime 0 h.SNDRV_PCM_HW_PARAM_RATE
            imx_pdm_mic_rate_constrains).2
          0 h.SNDRV_PCM_HW_PARAM_CHANNELS imx_pdm_mic_channels_constrains).2
        h.SNDRV_PCM_HW_PARAM_FORMAT (IMX_PDM_FORMATS h) := by
  simp only [imx_pdm_mic_startup, h1, h2]
  by_cases h3 : (pcm.snd_pcm_hw_constraint_mask64
      (pcm.snd_pcm_hw_constraint_list
        (pcm.snd_pcm_hw_constraint_list runtime 0 h.SNDRV_PCM_HW_PARAM_RATE
          imx_pdm_mic_rate_constrains).2
        0 h.SNDRV_PCM_HW_PARAM_CHANNELS imx_pdm_mic_channels_constrains).2
      h.SNDRV_PCM_HW_PARAM_FORMAT (IMX_PDM_FORMATS h)).1 = 0
  · simp [h3, Prod.ext_iff]
  · simp [h3]

/-- C6: `imx_pdm_mic_startup` attempts the installations in the order rate
list, channel list, format mask. When one fails, its code is returned and the
log of calls ends with it; 0 is returned exactly when all three were attempted
and answered 0. -/
theorem startup_call_sequence {ρ : Type} (h : Headers) (pcm : pcm_ops ρ) (runtime : ρ) :
    let c1 := pcm_call.constraint_list 0 h.SNDRV_PCM_HW_PARAM_RATE imx_pdm_mic_rate_constrains
    let c2 := pcm_call.constraint_list 0 h.SNDRV_PCM_HW_PARAM_CHANNELS imx_pdm_mic_channels_constrains
    let c3 := pcm_call.constraint_mask64 h.SNDRV_PCM_HW_PARAM_FORMAT (IMX_PDM_FORMATS h)
    let r1 := pcm.snd_pcm_hw_constraint_list runtime 0 h.SNDRV_PCM_HW_PARAM_RATE
      imx_pdm_mic_rate_constrains
    let r2 := pcm.snd_pcm_hw_constraint_list r1.2 0 h.SNDRV_PCM_HW_PARAM_CHANNELS
      imx_pdm_mic_channels_constrains
    let r3 := pcm.snd_pcm_hw_constraint_mask64 r2.2 h.SNDRV_PCM_HW_PARAM_FORMAT
      (IMX_PDM_FORMATS h)
    let out := imx_pdm_mic_startup h pcm.logged (runtime, [])
    (r1.1 ≠ 0 → out = (r1.1, r1.2, [c1])) ∧
    (r1.1 = 0 → r2.1 ≠ 0 → out = (r2.1, r2.2, [c1, c2])) ∧
    (r1.1 = 0 → r2.1 = 0 → out = (r3.1, r3.2, [c1, c2, c3])) ∧
    (out.1 = 0 ↔ r1.1 = 0 ∧ r2.1 = 0 ∧ r3.1 = 0 ∧ out.2.2 = [c1, c2, c3]) := by
  intro c1 c2 c3 r1 r2 r3 out
  have e1 : r1.1 ≠ 0 → out = (r1.1, r1.2, [c1]) := fun h1 =>
    startup_rate_fails h pcm.logged (runtime, []) h1
  have e2 : r1.1 = 0 → r2.1 ≠ 0 → out = (r2.1, r2.2, [c1, c2]) := fun h1 h2 =>
    startup_channels_fails h pcm.logged (runtime, []) h1 h2
  have e3 : r1.1 = 0 → r2.1 = 0 → out = (r3.1, r3.2, [c1, c2, c3]) := fun h1 h2 =>
    startup_reaches_format h pcm.logged (runtime, []) h1 h2
  refine ⟨e1, e2, e3, ?_⟩
  by_cases h1 : r1.1 = 0
  · by_cases h2 : r2.1 = 0
    · rw [e3 h1 h2]
      simp [h1, h2]
    · rw [e2 h1 h2]
      simp [h2]
  · rw [e1 h1]
    simp [h1]

/-- C6, witness: on a runtime that accepts both lists and refuses the format
mask, startup returns the code of the format mask, -22, after the three calls. -/
theorem startup_call_sequence_witness :
    imx_pdm_mic_startup linux_headers (recording_pcm (refuse_format_mask linux_headers)).logged
        ([], []) =
      (-22,
        [pcm_call.constraint_list 0 11 imx_pdm_mic_rate_constrains,
          pcm_call.constraint_list 0 10 imx_pdm_mic_channels_constrains],
        [pcm_call.constraint_list 0 11 imx_pdm_mic_rate_constrains,
          pcm_call.constraint_list 0 10 imx_pdm_mic_channels_constrains,
          pcm_call.constraint_mask64 1 (IMX_PDM_FORMATS linux_headers)]) :=
  (startup_call_sequence linux_headers (recording_pcm (refuse_format_mask linux_headers))
    []).2.2.1 rfl rfl

/-- C7 (as amended): `imx_pdm_mic_startup` performs no rollback. Whenever it
returns a failure, the runtime it leaves is the one returned by the failing
installation call, applied after the installations that succeeded earlier in
the same call. So the runtime is the one from before the call when the rate
installation is the one that fails and that call leaves the runtime unchanged.
And on every runtime whose list installations install their constraint when
they return 0 and whose installation calls never remove an installed
constraint, the constraints installed before the call and those installed
earlier in the same call (rate, or rate and channels) are still installed
when startup returns the failure. -/
theorem startup_failure_keeps_installed {ρ : Type} (h : Headers) (pcm : pcm_ops ρ)
    (runtime : ρ) (hfail : (imx_pdm_mic_startup h pcm runtime).1 ≠ 0) :
    let c1 := pcm_call.constraint_list 0 h.SNDRV_PCM_HW_PARAM_RATE imx_pdm_mic_rate_constrains
    let c2 := pcm_call.constraint_list 0 h.SNDRV_PCM_HW_PARAM_CHANNELS
      imx_pdm_mic_channels_constrains
    let r1 := pcm.snd_pcm_hw_constraint_list runtime 0 h.SNDRV_PCM_HW_PARAM_RATE
      imx_pdm_mic_rate_constrains
    let r2 := pcm.snd_pcm_hw_constraint_list r1.2 0 h.SNDRV_PCM_HW_PARAM_CHANNELS
      imx_pdm_mic_channels_constrains
    let r3 := pcm.snd_pcm_hw_constraint_mask64 r2.2 h.SNDRV_PCM_HW_PARAM_FORMAT
      (IMX_PDM_FORMATS h)
    let out := imx_pdm_mic_startup h pcm runtime
    ((r1.1 ≠ 0 ∧ out.2 = r1.2) ∨
      (r1.1 = 0 ∧ r2.1 ≠ 0 ∧ out.2 = r2.2) ∨
      (r1.1 = 0 ∧ r2.1 = 0 ∧ r3.1 ≠ 0 ∧ out.2 = r3.2)) ∧
    (r1.1 ≠ 0 → r1.2 = runtime → out.2 = runtime) ∧
    (∀ installed : ρ → pcm_call → Prop,
      (∀ (s : ρ) (cond var : Nat) (l : snd_pcm_hw_constraint_list),
        (pcm.snd_pcm_hw_constraint_list s cond var l).1 = 0 →
        installed (pcm.snd_pcm_hw_constraint_list s cond var l).2
          (pcm_call.constraint_list cond var l)) →
      (∀ (s : ρ) (cond var : Nat) (l : snd_pcm_hw_constraint_list) (c : pcm_call),
        installed s c → installed (pcm.snd_pcm_hw_constraint_list s cond var l).2 c) →
      (∀ (s : ρ) (var mask : Nat) (c : pcm_call),
        installed s c → installed (pcm.snd_pcm_hw_constraint_mask64 s var mask).2 c) →
      (∀ c : pcm_call, installed runtime c → installed out.2 c) ∧
      (r1.1 = 0 → installed out.2 c1) ∧
      (r1.1 = 0 → r2.1 = 0 → installed out.2 c2)) := by
  intro c1 c2 r1 r2 r3 out
  by_cases h1 : r1.1 = 0
  · by_cases h2 : r2.1 = 0
    · have e : out = r3 := startup_reaches_format h pcm runtime h1 h2
      have hfail3 : r3.1 ≠ 0 := by
        have hf : out.1 ≠ 0 := hfail
        rw [e] at hf
        exact hf
      refine ⟨Or.inr (Or.inr ⟨h1, h2, hfail3, by rw [e]⟩), fun h1n => absurd h1 h1n, ?_⟩
      intro installed hinst hlist hmask
      rw [e]
      refine ⟨fun c hc => hmask _ _ _ c (hlist _ _ _ _ c (hlist _ _ _ _ c hc)), ?_, ?_⟩
      · intro _
        exact hmask _ _ _ c1 (hlist _ _ _ _ c1 (hinst _ _ _ _ h1))
      · intro _ _
        exact hmask _ _ _ c2 (hinst _ _ _ _ h2)
    · have e : out = r2 := startup_channels_fails h pcm runtime h1 h2
      refine ⟨Or.inr (Or.inl ⟨h1, h2, by rw [e]⟩), fun h1n => absurd h1 h1n, ?_⟩
      intro installed hinst hlist _
      rw [e]
      refine ⟨fun c hc => hlist _ _ _ _ c (hlist _ _ _ _ c hc), ?_, ?_⟩
      · intro _
        exact hlist _ _ _ _ c1 (hinst _ _ _ _ h1)
      · intro _ h2z
        exact absurd h2z h2
  · have e : out = r1 := startup_rate_fails h pcm runtime h1
    refine ⟨Or.inl ⟨h1, by rw [e]⟩, ?_, ?_⟩
    · intro _ hsame
      rw [e]
      exact hsame
    · intro installed _ hlist _
      rw [e]
      exact ⟨fun c hc => hlist _ _ _ _ c hc, fun h1z => absurd h1z h1,
        fun h1z _ => absurd h1z h1⟩

/-- C7, witness: on a runtime that starts with no constraint, accepts both
lists and refuses the format mask, startup fails, and the rate and channel
constraints are installed on the runtime it leaves. -/
theorem startup_failure_keeps_installed_witness :
    (imx_pdm_mic_startup linux_headers (recording_pcm (refuse_format_mask linux_headers))
        []).1 ≠ 0 ∧
    pcm_call.constraint_list 0 11 imx_pdm_mic_rate_constrains ∈
      (imx_pdm_mic_startup linux_headers (recording_pcm (refuse_format_mask linux_headers))
        []).2 ∧
    pcm_call.constraint_list 0 10 imx_pdm_mic_channels_constrains ∈
      (imx_pdm_mic_startup linux_headers (recording_pcm (refuse_format_mask linux_headers))
        []).2 := by
  have hfail : (imx_pdm_mic_startup linux_headers
      (recording_pcm (refuse_format_mask linux_headers)) []).1 ≠ 0 := by decide
  have hkept := (startup_failure_keeps_installed linux_headers
      (recording_pcm (refuse_format_mask linux_headers)) [] hfail).2.2
      (fun s c => c ∈ s)
      (by
        intro s cond var l hz
        by_cases hc : refuse_format_mask linux_headers (pcm_call.constraint_list cond var l) = 0
        · simp [recording_pcm, hc]
        · simp [recording_pcm, hc] at hz)
      (by
        intro s cond var l c hc
        by_cases hcode :
            refuse_format_mask linux_headers (pcm_call.constraint_list cond var l) = 0
        · simp [recording_pcm, hcode, hc]
        · simp [recording_pcm, hcode, hc])
      (by
        intro s var mask c hc
        by_cases hcode :
            refuse_format_mask linux_headers (pcm_call.constraint_mask64 var mask) = 0
        · simp [recording_pcm, hcode, hc]
        · simp [recording_pcm, hcode, hc])
  exact ⟨hfail, hkept.2.1 (by decide), hkept.2.2 (by decide) (by decide)⟩

/-- C7, counterexample: a runtime with no constraint installed accepts the
rate and channel lists and refuses the format mask; startup returns the
failure -22 and the runtime holds the rate and channel constraints, so it is
not the runtime from before the call. -/
theorem startup_failure_not_atomic :
    imx_pdm_mic_startup linux_headers (recording_pcm (refuse_format_mask linux_headers)) [] =
      (-22, [pcm_call.constraint_list 0 11 imx_pdm_mic_rate_constrains,
        pcm_call.constraint_list 0 10 imx_pdm_mic_channels_constrains]) ∧
    (imx_pdm_mic_startup linux_headers (recording_pcm (refuse_format_mask linux_headers))
      []).1 ≠ 0 ∧
    (imx_pdm_mic_startup linux_headers (recording_pcm (refuse_format_mask linux_headers))
      []).2 ≠ [] := by
  decide

/-! ## Probe -/

/-- C9 (as amended): `imx_pdm_mic_probe` fails without registering the card,
with `-EINVAL` (or with `-ENOMEM` when an allocation failed before), for every
board description whose `decimation` attribute is absent or unreadable, that
is, whenever `of_property_read_u32` answers a negative code. The value read is
not tested: a card is registered only after a read that did not fail, with the
value read as its decimation, whatever it is; and when every call succeeds the
card is registered with that value and probe returns 0. -/
theorem probe_decimation_read (h : Headers) (env : platform_env) :
    (env.of_property_read_u32.1 < 0 →
      (imx_pdm_mic_probe h env).register_card = none ∧
      ((imx_pdm_mic_probe h env).ret = -h.EINVAL ∨ (imx_pdm_mic_probe h env).ret = -h.ENOMEM) ∧
      (env.devm_kzalloc_dlc = true → env.devm_kzalloc_data = true →
        (imx_pdm_mic_probe h env).ret = -h.EINVAL)) ∧
    (∀ data : imx_pdm_data, (imx_pdm_mic_probe h env).register_card = some data →
      0 ≤ env.of_property_read_u32.1 ∧ data.decimation = env.of_property_read_u32.2) ∧
    (∀ (cpu_np : Nat) (name : String),
      env.devm_kzalloc_dlc = true → env.of_parse_phandle = some cpu_np →
      env.of_find_device_by_node cpu_np = some name → env.devm_kzalloc_data = true →
      0 ≤ env.of_property_read_u32.1 → env.snd_soc_of_parse_card_name = 0 →
      (∀ data : imx_pdm_data, env.devm_snd_soc_register_card data = 0) →
      (imx_pdm_mic_probe h env).ret = 0 ∧
      ((imx_pdm_mic_probe h env).register_card.map imx_pdm_data.decimation) =
        some env.of_property_read_u32.2) := by
  refine ⟨?_, ?_, ?_⟩
  · intro hneg
    cases hdlc : env.devm_kzalloc_dlc
    · simp [imx_pdm_mic_probe, hdlc]
    · cases hnp : env.of_parse_phandle with
      | none => simp [imx_pdm_mic_probe, hdlc, hnp]
      | some cpu_np =>
        cases hdev : env.of_find_device_by_node cpu_np with
        | none => simp [imx_pdm_mic_probe, hdlc, hnp, hdev]
        | some name =>
          cases hdata : env.devm_kzalloc_data
          · simp [imx_pdm_mic_probe, hdlc, hnp, hdev, hdata]
          · simp [imx_pdm_mic_probe, hdlc, hnp, hdev, hdata, hneg]
  · intro data
    cases hdlc : env.devm_kzalloc_dlc
    · simp [imx_pdm_mic_probe, hdlc]
    · cases hnp : env.of_parse_phandle with
      | none => simp [imx_pdm_mic_probe, hdlc, hnp]
      | some cpu_np =>
        cases hdev : env.of_find_device_by_node cpu_np with
        | none => simp [imx_pdm_mic_probe, hdlc, hnp, hdev]
        | some name =>
          cases hdata : env.devm_kzalloc_data
          · simp [imx_pdm_mic_probe, hdlc, hnp, hdev, hdata]
          · by_cases hneg : env.of_property_read_u32.1 < 0
            · simp [imx_pdm_mic_probe, hdlc, hnp, hdev, hdata, hneg]
            · have hpos : 0 ≤ env.of_property_read_u32.1 := by omega
              by_cases hname : env.snd_soc_of_parse_card_name = 0
              · simp only [imx_pdm_mic_probe, hdlc, hnp, hdev, hdata, hneg, hname]
                split_ifs <;> simp <;> intro hd <;> subst hd <;> exact ⟨hpos, rfl⟩
              · simp [imx_pdm_mic_probe, hdlc, hnp, hdev, hdata, hneg, hname]
  · intro cpu_np name hdlc hnp hdev hdata hread hname hreg
    have hneg : ¬ env.of_property_read_u32.1 < 0 := by omega
    simp [imx_pdm_mic_probe, hdlc, hnp, hdev, hdata, hneg, hname, hreg]

/-- C9, witness: on a board without a `decimation` property whose other calls
all succeed, probe returns -22 and does not call the card registration. -/
theorem probe_decimation_read_witness :
    (imx_pdm_mic_probe linux_headers board_without_decimation).register_card = none ∧
    (imx_pdm_mic_probe linux_headers board_without_decimation).ret = -22 :=
  ⟨((probe_decimation_read linux_headers board_without_decimation).1 (by decide)).1,
   ((probe_decimation_read linux_headers board_without_decimation).1 (by decide)).2.2 rfl rfl⟩

/-- C9, counterexample: on a board whose `decimation` property reads 0 and
whose other calls all succeed, probe returns 0 and registers the card with
decimation 0. -/
theorem probe_accepts_zero_decimation :
    (good_board 0).of_property_read_u32 = (0, 0) ∧
    (imx_pdm_mic_probe linux_headers (good_board 0)).ret = 0 ∧
    ((imx_pdm_mic_probe linux_headers (good_board 0)).register_card.map
      imx_pdm_data.decimation) = some 0 := by
  decide

end ImxPdm
